import Mathlib

/- Shallow embedding of the core of confluence_tool/confluence_api.py:
   the page-reference resolver (resolveCQL), the paginated query iterator
   (iterate), the page-property filter (getPagesWithProperties), and the
   recursive page-tree synchronizer (copyPage), together with a model of
   the remote content service they call. -/

namespace ConfluenceTool

/- ===== Reference resolver (confluence_api.py:356-399) =====

   The four module-level patterns, applied with `re.search`:
     SPACE_PAGE_REF = ^([A-Z]*):(.*)$
     PAGE_REF       = ^:(.*)$
     PAGE_ID        = ^(\d+)$
     PAGE_URI       = api/content/(\d+)$
   Python `re` semantics modelled exactly: `.` does not match a newline and
   `$` matches at the end of the string or just before one trailing newline,
   so each anchored pattern is matched against the input with at most one
   trailing newline removed (`chomp`), and no captured group may contain a
   newline. -/

/-- Removal of a single trailing newline: the positions where `$` can match. -/
def chomp : List Char → List Char
  | [] => []
  | [c] => if c = '\n' then [] else [c]
  | c :: rest => c :: chomp rest

/-- Splitting at the first colon: `^(X):(Y)` decomposition, if any.
Because `[A-Z]*` cannot contain a colon, `^([A-Z]*):` can only match at the
first colon of the input. -/
def splitAtColon : List Char → Option (List Char × List Char)
  | [] => none
  | c :: cs =>
    if c = ':' then some ([], cs)
    else
      match splitAtColon cs with
      | some (a, b) => some (c :: a, b)
      | none => none

/-- Matching of SPACE_PAGE_REF = `^([A-Z]*):(.*)$` on a chomped input: the
prefix before the first colon must be zero or more uppercase letters (the
source regex uses `*`, not `+`) and the remainder must be newline-free. -/
def spacePageRefMatch (t : List Char) : Option (List Char × List Char) :=
  match splitAtColon t with
  | some (a, b) =>
    if a.all Char.isUpper && b.all (fun d => d ≠ '\n') then some (a, b) else none
  | none => none

/-- Matching of PAGE_REF = `^:(.*)$` on a chomped input. -/
def pageRefMatch (t : List Char) : Option (List Char) :=
  match t with
  | c :: rest =>
    if c = ':' ∧ rest.all (fun d => d ≠ '\n') then some rest else none
  | [] => none

/-- Matching of PAGE_ID = `^(\d+)$` on a chomped input. -/
def pageIdMatch (t : List Char) : Option (List Char) :=
  if t ≠ [] ∧ t.all Char.isDigit then some t else none

/-- The maximal run of decimal digits at the end of the input. -/
def digitSuffix (t : List Char) : List Char :=
  (t.reverse.takeWhile Char.isDigit).reverse

/-- Matching of PAGE_URI = `api/content/(\d+)$` (unanchored at the start):
the input must end with the literal `api/content/` followed by a nonempty
digit run; since `/` is not a digit, the captured group is exactly the
maximal digit suffix. -/
def pageUriMatch (t : List Char) : Option (List Char) :=
  let ds := digitSuffix t
  if ds ≠ [] ∧ "api/content/".data.isSuffixOf (t.take (t.length - ds.length)) then
    some ds
  else none

/-- The resolver `resolveCQL` (confluence_api.py:361-399): the four patterns
are tried in order and the first match supplies the format string; otherwise
the input is returned unchanged. The format strings are copied verbatim from
the source, including the double spaces in `"title  = "` and `"ID  = "`. -/
def resolveCQL (ref : String) : String :=
  let t := chomp ref.data
  match spacePageRefMatch t with
  | some (sp, ti) =>
    "space = " ++ String.mk sp ++ " AND title  = \"" ++ String.mk ti ++ "\""
  | none =>
  match pageRefMatch t with
  | some ti => "title  = \"" ++ String.mk ti ++ "\""
  | none =>
  match pageIdMatch t with
  | some ds => "ID  = " ++ String.mk ds
  | none =>
  match pageUriMatch t with
  | some ds => "ID  = " ++ String.mk ds
  | none => ref

/- ===== Paginated query iterator (confluence_api.py:312-354) =====

   The remote listing operation `findPages` is modelled over an honest
   backend holding the full result list of the query: a fetch starting at
   `start` with requested page size `lim` returns that slice, its size, and
   echoes the requested limit. -/

/-- Wire shape of one page of results of `/rest/api/content/search`. -/
structure FindResult (α : Type) where
  results : List α
  size : Nat
  limit : Nat
deriving Repr

/-- The remote `findPages` (confluence_api.py:312-320) against a backend
whose full result list for the query is `items`. -/
def findPages {α : Type} (items : List α) (start lim : Nat) : FindResult α :=
  let rs := (items.drop start).take lim
  ⟨rs, rs.length, lim⟩

/-- The inner `for page in result['results']` loop of `iterate`
(confluence_api.py:340-345): each item is yielded, then the counter is
decremented and checked, breaking when it reaches zero or less. Returns the
yielded items and the final counter. Note the check runs after the first
yield, so a nonempty page always yields at least one item. -/
def iterInner {α : Type} (l : List α) (m : Int) : List α × Int :=
  match l with
  | [] => ([], m)
  | p :: ps =>
    if m - 1 ≤ 0 then ([p], m - 1)
    else
      let r := iterInner ps (m - 1)
      (p :: r.1, r.2)

/-- The `while True` loop of `iterate` (confluence_api.py:335-354): fetch a
page of fixed size 25 at `start`, yield through `iterInner`, stop when the
counter is exhausted or the page was short (`result['size'] <
result['limit']`), else advance `start` by the page size. Returns the
yielded items and the list of `(start, limit)` fetch requests issued. -/
def iterLoop {α : Type} (items : List α) (start : Nat) (m : Int) :
    List α × List (Nat × Nat) :=
  let r := iterInner (findPages items start 25).results m
  if r.2 ≤ 0 then (r.1, [(start, 25)])
  else if h : (findPages items start 25).size < (findPages items start 25).limit then
    (r.1, [(start, 25)])
  else
    let rest := iterLoop items (start + 25) r.2
    (r.1 ++ rest.1, (start, 25) :: rest.2)
termination_by items.length - start
decreasing_by
  simp [findPages] at h
  omega

/-- The generator `iterate` (confluence_api.py:322-354): `start` defaults to
0 and `limit` to -1; any negative limit is replaced by the sentinel
10000000000. Returns the yielded items and the fetch requests issued. -/
def iterate {α : Type} (items : List α) (start : Nat) (lim : Option Int) :
    List α × List (Nat × Nat) :=
  let maxResults : Int :=
    match lim with
    | none => -1
    | some l => l
  let maxResults := if maxResults < 0 then 10000000000 else maxResults
  iterLoop items start maxResults

/- ===== Property filter (confluence_api.py:452-493) ===== -/

/-- A stored page-property value: per the external interface (spec section 6,
`getProperty -> scalar | collection | absent`; the accessor
`Page.getPageProperty` itself lives in the missing page.py). -/
inductive PropVal where
  | scalar (s : String)
  | coll (l : List String)
  | absent
deriving DecidableEq, Repr

/-- A parsed property-filter spec, the `dict(name=..., cmp=..., value=...)`
of confluence_api.py:467. -/
structure PropFilterSpec where
  name : String
  cmp : Char
  value : String
deriving DecidableEq, Repr

/-- Scanner for PAGE_PROP_FILTER = `^(.*?)([!=])=(.*)` (confluence_api.py:452)
under `re.search`: the lazy group stops at the first position where a `!` or
`=` is followed by `=`; the lazy group cannot cross a newline, and the value
group is the remainder up to the first newline (the pattern has no `$`). -/
def scanPF (acc : List Char) : List Char → Option PropFilterSpec
  | [] => none
  | c :: rest =>
    if (c = '!' ∨ c = '=') ∧ rest.head? = some '=' then
      some ⟨String.mk acc.reverse, c, String.mk (rest.tail.takeWhile (fun d => d ≠ '\n'))⟩
    else if c = '\n' then none
    else scanPF (c :: acc) rest

/-- Parsing of one string filter item (confluence_api.py:463-467). -/
def parsePF (s : String) : Option PropFilterSpec :=
  scanPF [] s.data

/-- The `page_prop_filters` list: string items that match the pattern are
kept, the rest are silently dropped (confluence_api.py:462-467). -/
def parseFilters (specs : List String) : List PropFilterSpec :=
  specs.filterMap parsePF

/-- The final value of the enclosing-scope variable `cmp` after the parse
loop of confluence_api.py:462-467: the operator of the last successfully
parsed string spec. The nested `page_prop_filterer` closure reads this
variable - not `f['cmp']` - when it compares (line 479). -/
def lastCmpOp (specs : List String) : Option Char :=
  ((parseFilters specs).getLast?).map (fun f => f.cmp)

/-- Modelled from the spec: `Page.getPageProperty` is defined in the missing
page.py; section 6 declares `getProperty(item, name) -> scalar | collection
| absent`. A page is modelled as an association list of named properties. -/
def getPageProperty (props : List (String × PropVal)) (name : String) : PropVal :=
  match props.find? (fun kv => kv.1 = name) with
  | some kv => kv.2
  | none => .absent

/-- The nested `page_prop_filterer` (confluence_api.py:471-490) applied to
one page, for a list of string filter specs: with zero parsed specs every
page passes; otherwise each spec's named property is looked up and compared
- membership when the stored value is a collection, equality otherwise - but
the branch between equality and inequality is decided by the closure
variable `cmp` (the last parsed spec's operator), the same for every spec;
an absent property (Python None) compares unequal to every string. -/
def pagePropFilterer (specs : List String) (props : List (String × PropVal)) : Bool :=
  let fs := parseFilters specs
  if fs.length = 0 then true
  else
    fs.foldl (fun result f =>
      let value := getPageProperty props f.name
      if lastCmpOp specs = some '=' then
        match value with
        | .coll l => result && l.contains f.value
        | .scalar s => result && (s == f.value)
        | .absent => result && false
      else
        match value with
        | .coll l => result && !(l.contains f.value)
        | .scalar s => result && (s != f.value)
        | .absent => result && true) true

/- ===== Page tree synchronizer (confluence_api.py:138-198) =====

   The remote wiki is modelled as a finite list of pages, each with an
   identifier, title, storage body, version number and optional parent
   identifier, plus a counter supplying fresh identifiers for creation. -/

/-- One content item as the synchronizer reads it: id, title, storage body,
version number, and parent (tree position). -/
structure PageData where
  id : String
  title : String
  body : String
  version : Nat
  parent : Option String
deriving DecidableEq, Repr

/-- The remote wiki state. -/
structure Wiki where
  pages : List PageData
  nextId : Nat
deriving DecidableEq, Repr

/-- One remote write call, as issued by the synchronizer: the arguments of
`createPage` (confluence_api.py:506-517), `updatePage` (250-274) and
`deletePage` (called at line 198). -/
inductive RCall where
  | create (space : Option String) (title : String) (body : String) (parent : Option String)
  | update (id : String) (title : String) (version : Nat) (body : String)
  | delete (id : String)
deriving DecidableEq, Repr

/-- An error escaping a synchronizer call: `ConfluenceError` raised by
`request` on any HTTP status >= 400 (confluence_api.py:81-88),
`AssertionError` from the duplicate-title asserts (183-184), or fuel
exhaustion (modelling nontermination on a malformed cyclic tree, which the
source does not guard against). -/
inductive CErr where
  | confluence
  | assertion
  | fuel
deriving DecidableEq, Repr

/-- Lookup of a page by identifier. -/
def findPage (st : Wiki) (ref : String) : Option PageData :=
  st.pages.find? (fun p => p.id = ref)

/-- The fetch `getPage` (confluence_api.py:206-213): GET
`/rest/api/content/<ref>`. For a missing page the remote answers 404 and
`request` raises `ConfluenceError` (lines 81-88); `getPage` wraps a
successful response in `Page` and can never return `None`. -/
def getPage (st : Wiki) (ref : String) : Except CErr PageData :=
  match findPage st ref with
  | some p => .ok p
  | none => .error .confluence

/-- State effect of `updatePage` (confluence_api.py:250-274): the remote
stores the new body and advances the version; title and tree position are
unchanged (the call passes the current title back). -/
def applyUpdate (st : Wiki) (pid : String) (body : String) : Wiki :=
  { st with pages := st.pages.map (fun p =>
      if p.id = pid then { p with body := body, version := p.version + 1 } else p) }

/-- Modelled from the spec: `deletePage` is called at confluence_api.py:198
but not defined in this source file; section 6 declares
`deleteItem(id) -> success/failure`, a single remote delete of the given
page (non-recursive, one call per orphaned child). -/
def applyDelete (st : Wiki) (pid : String) : Wiki :=
  { st with pages := st.pages.filter (fun p => p.id ≠ pid) }

/-- State effect and result of `createPage` (confluence_api.py:506-517):
POST of a new page with the given space, title, storage body and optional
parent; the remote assigns a fresh identifier and version 1. -/
def createPage (st : Wiki) (title body : String) (parent : Option String) :
    Wiki × PageData :=
  let p : PageData := ⟨toString st.nextId, title, body, 1, parent⟩
  (⟨st.pages ++ [p], st.nextId + 1⟩, p)

/-- The fetch `getChildren` (confluence_api.py:520-527): GET
`<id>/child/page`, the direct children of the given page. -/
def getChildren (st : Wiki) (pid : String) : List PageData :=
  st.pages.filter (fun p => p.parent = some pid)

/-- Insertion into a title-sorted list. -/
def insertByTitle (p : PageData) : List PageData → List PageData
  | [] => [p]
  | q :: qs => if p.title ≤ q.title then p :: q :: qs else q :: insertByTitle p qs

/-- The `sorted([(p['title'], p) for p in ...])` of confluence_api.py:175-176:
children sorted by title. -/
def sortByTitle : List PageData → List PageData
  | [] => []
  | p :: ps => insertByTitle p (sortByTitle ps)

/-- The titles of a page's direct children, in sorted order: the keys of the
`source_subpage` / `target_subpage` dictionaries of confluence_api.py:180-181. -/
def childTitles (st : Wiki) (pid : String) : List String :=
  (sortByTitle (getChildren st pid)).map (fun p => p.title)

/-- The number of distinct values in a list of titles: the size of the
title-keyed dictionary (`len(source_subpage.keys())`) that the asserts of
confluence_api.py:183-184 compare against the raw child count. -/
def distinctCount : List String → Nat
  | [] => 0
  | x :: xs => (if x ∈ xs then 0 else 1) + distinctCount xs

deriving instance DecidableEq for Except

/-- Outcome of one synchronizer call: the final remote state, the write
calls issued (in order) up to the return or the escaping error, and the
returned value - `copyPage` has no return statement, so a successful call
returns Python `None`, modelled as `Except.ok none`. -/
structure SyncOut where
  st : Wiki
  calls : List RCall
  ret : Except CErr (Option PageData)
deriving DecidableEq, Repr

/-- The subtarget of one source child (confluence_api.py:187-190): the
matching target child's id when one has the same title, else the title
string itself (which makes the next-level target fetch miss). -/
def subtargetFor (tgtCh : List PageData) (k : PageData) : String :=
  match tgtCh.find? (fun q => q.title = k.title) with
  | some q => q.id
  | none => k.title

/-- The `for title, page in source_subpage.items()` loop of
confluence_api.py:186-193, abstracted over the recursive call `recfn st
child_id subtarget`: an error escaping a recursive call aborts the loop.
CPython 2 dictionary order is unspecified; the loop is modelled in
sorted-title order, which is a bijection on the duplicate-free child lists
reaching it. -/
def copyLoopWith (recfn : Wiki → String → String → SyncOut)
    (tgtCh : List PageData) : Wiki → List PageData → Wiki × List RCall × Option CErr
  | st, [] => (st, [], none)
  | st, k :: ks =>
    let r := recfn st k.id (subtargetFor tgtCh k)
    match r.ret with
    | .error e => (r.st, r.calls, some e)
    | .ok _ =>
      let rest := copyLoopWith recfn tgtCh r.st ks
      (rest.1, r.calls ++ rest.2.1, rest.2.2)

/-- The synchronizer `copyPage` (confluence_api.py:138-198).

Fetch the source page, then the target page. A missing target makes the
target fetch raise `ConfluenceError` (see `getPage`), which `copyPage` does
not catch, so the `if target_page is None` CREATE branch of lines 158-165
is unreachable and only the UPDATE branch (167-172) can run: the target is
updated with the source's body, at the version and title just read. If
`recursive`, the direct page children of both sides are fetched (from the
state after the update), sorted by title, and the two duplicate-title
asserts of lines 183-184 run - source side first - before any per-child
call; then each source child is synchronized through `copyLoopWith` with
`parent` set to the target's id and with `delete` NOT passed down (so it
reverts to its default False in every recursive call); finally, when
`delete` is set, each target child whose title is absent from the source
children (computed before the loop) is deleted. `fuel` bounds the recursion
depth, modelling the source's unguarded recursion. -/
def copyPage (fuel : Nat) (st : Wiki) (source target : String) (recursive : Bool)
    (parent space : Option String) (del : Bool) : SyncOut :=
  match fuel with
  | 0 => ⟨st, [], .error .fuel⟩
  | Nat.succ n =>
    match getPage st source with
    | .error e => ⟨st, [], .error e⟩
    | .ok sp =>
      match getPage st target with
      | .error e => ⟨st, [], .error e⟩
      | .ok tp =>
        let st1 := applyUpdate st tp.id sp.body
        let calls1 : List RCall := [RCall.update tp.id tp.title tp.version sp.body]
        if recursive then
          let srcCh := sortByTitle (getChildren st1 sp.id)
          let tgtCh := sortByTitle (getChildren st1 tp.id)
          let sTitles := srcCh.map (fun p => p.title)
          let tTitles := tgtCh.map (fun p => p.title)
          if distinctCount sTitles = sTitles.length then
            if distinctCount tTitles = tTitles.length then
              let r := copyLoopWith
                (fun w a b => copyPage n w a b recursive (some tp.id) space false)
                tgtCh st1 srcCh
              match r.2.2 with
              | some e => ⟨r.1, calls1 ++ r.2.1, .error e⟩
              | none =>
                if del then
                  let orphans := tgtCh.filter (fun q => !(sTitles.contains q.title))
                  ⟨orphans.foldl (fun w q => applyDelete w q.id) r.1,
                   calls1 ++ r.2.1 ++ orphans.map (fun q => RCall.delete q.id),
                   Except.ok none⟩
                else ⟨r.1, calls1 ++ r.2.1, Except.ok none⟩
            else ⟨st1, calls1, .error .assertion⟩
          else ⟨st1, calls1, .error .assertion⟩
        else ⟨st1, calls1, Except.ok none⟩

/-- The orphaned direct children of `tid`: target children whose title does
not occur among the source children of `sid`, the pages the prune loop of
confluence_api.py:195-198 deletes. -/
def orphanChildren (st : Wiki) (sid tid : String) : List PageData :=
  (sortByTitle (getChildren st tid)).filter
    (fun q => !(((sortByTitle (getChildren st sid)).map (fun p => p.title)).contains q.title))

/-- Recognizer of delete calls in a trace. -/
def isDeleteCall : RCall → Bool
  | .delete _ => true
  | _ => false

/-- Recognizer of a successful return carrying a page (what the claim that
`sync` returns the target item would require; `copyPage` never does). -/
def retOkSome (o : SyncOut) : Bool :=
  match o.ret with
  | .ok (some _) => true
  | _ => false

/- ===== Concrete scenario states ===== -/

/-- A wiki holding the source tree A{B, C{D}} and no page named or
identified by `NewA`: the CREATE scenario of the spec. -/
def wikiC1 : Wiki :=
  ⟨[⟨"1", "A", "bodyA", 1, none⟩,
    ⟨"2", "B", "bodyB", 1, some "1"⟩,
    ⟨"3", "C", "bodyC", 1, some "1"⟩,
    ⟨"4", "D", "bodyD", 1, some "3"⟩], 50⟩

/-- A wiki where the source page `1` has two children with the duplicate
title `B`, and the target page `9` exists. -/
def wikiC5 : Wiki :=
  ⟨[⟨"1", "A", "bodyA", 1, none⟩,
    ⟨"2", "B", "b2", 1, some "1"⟩,
    ⟨"3", "B", "b3", 1, some "1"⟩,
    ⟨"9", "T", "old", 1, none⟩], 50⟩

/-- A wiki with fully matched trees: source A{B} (ids 1, 2) and target
A2{B} (ids 5, 6), every source child title present in the target, so a
recursive sync succeeds end to end. -/
def wikiC6 : Wiki :=
  ⟨[⟨"1", "A", "bodyA", 1, none⟩,
    ⟨"2", "B", "bodyB", 1, some "1"⟩,
    ⟨"5", "A2", "old5", 3, none⟩,
    ⟨"6", "B", "old6", 2, some "5"⟩], 50⟩

/-- The wiki of `wikiC6` with an extra target child X (id 7) absent from
the source: the page the prune loop must delete. -/
def wikiC10 : Wiki :=
  ⟨[⟨"1", "A", "bodyA", 1, none⟩,
    ⟨"2", "B", "bodyB", 1, some "1"⟩,
    ⟨"5", "A2", "old5", 3, none⟩,
    ⟨"6", "B", "old6", 2, some "5"⟩,
    ⟨"7", "X", "old7", 1, some "5"⟩], 50⟩

/-- A page whose property `a` is the scalar `x` and whose property `b` is
the scalar `q`. -/
def pageC3 : List (String × PropVal) :=
  [("a", .scalar "x"), ("b", .scalar "q")]

/- ===== Lemmas about the paginated iterator ===== -/

/-- Closed form of the inner yield loop for a positive counter: it yields
the first `m` items of the page and decrements the counter once per yield. -/
theorem iterInner_spec {α : Type} (l : List α) (m : Int) (h : 1 ≤ m) :
    iterInner l m = (l.take m.toNat, m - (l.take m.toNat).length) := by
  induction l generalizing m with
  | nil => simp [iterInner]
  | cons p ps ih =>
    by_cases h1 : m - 1 ≤ 0
    · have hm : m = 1 := by omega
      subst hm
      simp [iterInner]
    · have ih2 := ih (m - 1) (by omega)
      simp only [iterInner, if_neg h1, ih2]
      have ht : m.toNat = (m - 1).toNat + 1 := by omega
      rw [ht, List.take_succ_cons]
      simp only [Prod.mk.injEq, List.length_cons, true_and]
      push_cast
      ring

/-- The inner loop with counter 0 yields one item of a nonempty page (the
check runs after the yield) and leaves a non-positive counter. -/
theorem iterInner_zero {α : Type} (l : List α) :
    (iterInner l 0).1 = l.take 1 ∧ (iterInner l 0).2 ≤ 0 := by
  cases l with
  | nil => exact ⟨rfl, le_refl 0⟩
  | cons p ps => exact ⟨rfl, by norm_num [iterInner]⟩

/-- For a positive counter the fetch loop yields the first `m` remaining
items, in backend order. -/
theorem iterLoop_yield {α : Type} (items : List α) (start : Nat) (m : Int) :
    1 ≤ m → (iterLoop items start m).1 = (items.drop start).take m.toNat := by
  induction start, m using iterLoop.induct items with
  | case1 start m r hr =>
    intro hm
    have h0 : (iterInner ((items.drop start).take 25) m).2 ≤ 0 := hr
    rw [iterLoop]
    simp only [findPages]
    rw [if_pos h0]
    rw [iterInner_spec _ _ hm] at h0 ⊢
    dsimp only at h0 ⊢
    simp only [List.length_take, List.length_drop] at h0
    rw [List.take_take, List.take_eq_take]
    simp only [List.length_drop]
    omega
  | case2 start m r hr hshort =>
    intro hm
    have h0 : ¬(iterInner ((items.drop start).take 25) m).2 ≤ 0 := hr
    have h1 : ((items.drop start).take 25).length < 25 := hshort
    rw [iterLoop]
    simp only [findPages]
    rw [if_neg h0, dif_pos h1]
    rw [iterInner_spec _ _ hm]
    dsimp only
    simp only [List.length_take, List.length_drop] at h1
    rw [List.take_take, List.take_eq_take]
    simp only [List.length_drop]
    omega
  | case3 start m r hr hfull ih =>
    intro hm
    have h0 : ¬(iterInner ((items.drop start).take 25) m).2 ≤ 0 := hr
    have h1 : ¬((items.drop start).take 25).length < 25 := hfull
    have hreq : r.2 = m - ((((items.drop start).take 25).take m.toNat).length : Int) := by
      rw [show r = iterInner ((items.drop start).take 25) m from rfl,
          iterInner_spec _ _ hm]
    rw [iterLoop]
    simp only [findPages]
    rw [if_neg h0, dif_neg h1]
    rw [iterInner_spec _ _ hm] at h0 ⊢
    rw [hreq] at ih
    dsimp only at h0 ⊢
    simp only [List.length_take, List.length_drop] at h0 h1 ih ⊢
    have hm2 : 1 ≤ m - ((min m.toNat (min 25 (items.length - start)) : Nat) : Int) := by
      omega
    rw [ih hm2]
    have h2 : ((items.drop start).take 25).take m.toNat = (items.drop start).take 25 := by
      rw [List.take_take]
      congr 1
      omega
    rw [h2]
    have h3 : (m - ((min m.toNat (min 25 (items.length - start)) : Nat) : Int)).toNat
        = m.toNat - 25 := by omega
    rw [h3, ← List.drop_drop, ← List.take_add]
    congr 1
    omega

/-- With counter 0 the fetch loop still yields the first remaining item, if
any: the counter check runs only after a yield. -/
theorem iterLoop_yield_zero {α : Type} (items : List α) (start : Nat) :
    (iterLoop items start 0).1 = (items.drop start).take 1 := by
  rw [iterLoop]
  simp only [findPages]
  rw [if_pos (iterInner_zero ((items.drop start).take 25)).2]
  rw [(iterInner_zero ((items.drop start).take 25)).1]
  rw [List.take_take]
  congr 1

/-- When the counter is larger than the whole remainder of the backend, the
loop issues exactly one request per round, at offsets advancing by the page
size 25, and stops with the first short page. -/
theorem iterLoop_requests {α : Type} (items : List α) (start : Nat) (m : Int) :
    1 ≤ m → (items.length : Int) - start < m →
      (iterLoop items start m).2 =
        (List.range ((items.length - start) / 25 + 1)).map (fun i => (start + 25 * i, 25)) := by
  induction start, m using iterLoop.induct items with
  | case1 start m r hr =>
    intro hm hlt
    exfalso
    have h0 : (iterInner ((items.drop start).take 25) m).2 ≤ 0 := hr
    rw [iterInner_spec _ _ hm] at h0
    dsimp only at h0
    simp only [List.length_take, List.length_drop] at h0
    omega
  | case2 start m r hr hshort =>
    intro hm hlt
    have h0 : ¬(iterInner ((items.drop start).take 25) m).2 ≤ 0 := hr
    have h1 : ((items.drop start).take 25).length < 25 := hshort
    rw [iterLoop]
    simp only [findPages]
    rw [if_neg h0, dif_pos h1]
    simp only [List.length_take, List.length_drop] at h1
    have hdiv : (items.length - start) / 25 = 0 := by omega
    rw [hdiv]
    simp [List.range_succ]
  | case3 start m r hr hfull ih =>
    intro hm hlt
    have h0 : ¬(iterInner ((items.drop start).take 25) m).2 ≤ 0 := hr
    have h1 : ¬((items.drop start).take 25).length < 25 := hfull
    have hreq : r.2 = m - ((((items.drop start).take 25).take m.toNat).length : Int) := by
      rw [show r = iterInner ((items.drop start).take 25) m from rfl,
          iterInner_spec _ _ hm]
    rw [iterLoop]
    simp only [findPages]
    rw [if_neg h0, dif_neg h1]
    rw [iterInner_spec _ _ hm] at h0 ⊢
    rw [hreq] at ih
    dsimp only at h0 ⊢
    simp only [List.length_take, List.length_drop] at h0 h1 ih ⊢
    have hm2 : 1 ≤ m - ((min m.toNat (min 25 (items.length - start)) : Nat) : Int) := by
      omega
    have hlt2 : (items.length : Int) - (start + 25)
        < m - ((min m.toNat (min 25 (items.length - start)) : Nat) : Int) := by
      push_cast
      omega
    have hdiv : (items.length - start) / 25 + 1
        = ((items.length - (start + 25)) / 25 + 1) + 1 := by omega
    have hx : (List.range ((items.length - start) / 25 + 1)).map (fun i => (start + 25 * i, 25))
        = (start, 25) :: (List.range ((items.length - (start + 25)) / 25 + 1)).map
            (fun i => (start + 25 + 25 * i, 25)) := by
      rw [hdiv, List.range_succ_eq_map, List.map_cons, List.map_map]
      simp only [Nat.mul_zero, Nat.add_zero, List.cons.injEq, true_and]
      refine List.map_congr_left ?_
      intro i _
      simp only [Function.comp_apply, Prod.mk.injEq, and_true]
      omega
    rw [ih hm2 hlt2, hx]

/-- C2 (amended): `iterate` with a requested limit `N` yields the first
`min(max(N,1), total)` backend items, in backend order: the limit check runs
after each yield, so `N = 0` behaves like `N = 1`. -/
theorem c2_iterate_yields_min_of_limit_or_one {α : Type} (items : List α) (N : Nat) :
    (iterate items 0 (some (N : Int))).1 = items.take (max N 1) := by
  rcases Nat.eq_zero_or_pos N with h0 | hpos
  · subst h0
    show (iterLoop items 0 0).1 = items.take (max 0 1)
    rw [iterLoop_yield_zero]
    rfl
  · have h1 : (1 : Int) ≤ (N : Int) := by exact_mod_cast hpos
    have hneg : ¬((N : Int) < 0) := by omega
    show (iterLoop items 0 (if (N : Int) < 0 then 10000000000 else (N : Int))).1
        = items.take (max N 1)
    rw [if_neg hneg, iterLoop_yield items 0 (N : Int) h1]
    simp only [List.drop_zero, Int.toNat_natCast]
    congr 1
    omega

/-- C2 (counterexample): with limit 0 against a backend holding one item,
`iterate` yields that item, not the empty sequence the claim requires. -/
theorem c2_limit_zero_yields_one_item :
    (iterate [7] 0 (some 0)).1 = [7] ∧ (iterate [7] 0 (some 0)).1 ≠ [] := by
  have h : (iterate [7] 0 (some 0)).1 = [7] := by
    show (iterLoop [7] 0 0).1 = [7]
    rw [iterLoop_yield_zero]
    rfl
  refine ⟨h, ?_⟩
  rw [h]
  simp

/-- C7: without an explicit limit (and a backend small enough not to hit
the 10^10 sentinel), `iterate` yields every backend item in order and
terminates; it issues one fixed-size-25 request per round, at offsets 0,
25, 50, ..., ending with the round whose page is short. -/
theorem c7_unbounded_iterate_terminates_on_short_page {α : Type} (items : List α)
    (h : items.length < 10000000000) :
    (iterate items 0 none).1 = items ∧
    (iterate items 0 none).2
      = (List.range (items.length / 25 + 1)).map (fun i => (25 * i, 25)) := by
  have hm : (1 : Int) ≤ 10000000000 := by norm_num
  have hlt : (items.length : Int) - 0 < 10000000000 := by omega
  constructor
  · show (iterLoop items 0 10000000000).1 = items
    rw [iterLoop_yield items 0 10000000000 hm]
    simp only [List.drop_zero]
    refine List.take_of_length_le ?_
    show items.length ≤ (10000000000 : Int).toNat
    omega
  · show (iterLoop items 0 10000000000).2
        = (List.range (items.length / 25 + 1)).map (fun i => (25 * i, 25))
    rw [iterLoop_requests items 0 10000000000 hm hlt]
    simp only [Nat.sub_zero]
    refine List.map_congr_left ?_
    intro i _
    simp

/-- C7 (witness): a three-item backend is fully yielded in one request. -/
theorem c7_witness :
    ([1, 2, 3] : List Nat).length < 10000000000 ∧
    ((iterate [1, 2, 3] 0 none).1 = [1, 2, 3] ∧
     (iterate [1, 2, 3] 0 none).2
       = (List.range (([1, 2, 3] : List Nat).length / 25 + 1)).map (fun i => (25 * i, 25))) :=
  ⟨by norm_num, c7_unbounded_iterate_terminates_on_short_page [1, 2, 3] (by norm_num)⟩

/- ===== Lemmas about the resolver ===== -/

/-- An input without a newline is unchanged by `chomp`. -/
theorem chomp_eq_self : ∀ (t : List Char), '\n' ∉ t → chomp t = t
  | [], _ => rfl
  | [c], h => by
    have hc : ¬(c = '\n') := by
      intro hcc
      subst hcc
      exact h (List.mem_singleton_self _)
    simp [chomp, hc]
  | c :: d :: rest, h => by
    have ih := chomp_eq_self (d :: rest) (fun hm => h (List.mem_cons_of_mem c hm))
    show c :: chomp (d :: rest) = c :: d :: rest
    rw [ih]

/-- An input without a colon has no `^(X):(Y)` decomposition. -/
theorem splitAtColon_eq_none : ∀ (t : List Char), ':' ∉ t → splitAtColon t = none
  | [], _ => rfl
  | c :: cs, h => by
    have hc : ¬(c = ':') := by
      intro hcc
      subst hcc
      exact h (List.mem_cons_self _ _)
    have ih := splitAtColon_eq_none cs (fun hm => h (List.mem_cons_of_mem c hm))
    simp [splitAtColon, hc, ih]

/-- C4: the reference `:Title text` is captured by the space-and-title rule
with an empty space key (the source regex allows zero uppercase letters), so
the resolver returns `space =  AND title  = "Title text"` rather than the
title-only query of the dedicated leading-colon rule, even though that rule
(PAGE_REF) does match the input - it is shadowed and dead. -/
theorem c4_leading_colon_takes_space_rule :
    resolveCQL ":Title text" = "space =  AND title  = \"Title text\"" ∧
    pageRefMatch (chomp ":Title text".data) = some "Title text".data := by
  exact ⟨rfl, rfl⟩

/-- C8 (counterexample): the resolver formats a purely numeric reference
with TWO spaces before the equals sign, so the claimed exact query
`ID = 123` is not returned. -/
theorem c8_double_space_counterexample :
    resolveCQL "123" = "ID  = 123" ∧ resolveCQL "123" ≠ "ID = 123" := by
  exact ⟨rfl, by decide⟩

/-- C8 (amended): every nonempty purely-decimal reference resolves to
`ID  = <same digits>` - the digits are preserved verbatim, with the code's
double-space formatting. -/
theorem c8_digits_resolve_to_id_query (s : String) (h1 : s.data ≠ [])
    (h2 : ∀ c ∈ s.data, c.isDigit) :
    resolveCQL s = "ID  = " ++ s := by
  have hnl : '\n' ∉ s.data := fun hm => absurd (h2 _ hm) (by decide)
  have hcol : ':' ∉ s.data := fun hm => absurd (h2 _ hm) (by decide)
  have hch : chomp s.data = s.data := chomp_eq_self _ hnl
  have hsp : spacePageRefMatch s.data = none := by
    simp only [spacePageRefMatch, splitAtColon_eq_none _ hcol]
  have hpr : pageRefMatch s.data = none := by
    cases hd : s.data with
    | nil => exact absurd hd h1
    | cons c cs =>
      have hcd : c.isDigit := h2 c (by rw [hd]; exact List.mem_cons_self c cs)
      have hcne : ¬(c = ':' ∧ cs.all (fun d => d ≠ '\n')) := by
        rintro ⟨hcc, -⟩
        rw [hcc] at hcd
        exact absurd hcd (by decide)
      show (if c = ':' ∧ cs.all (fun d => d ≠ '\n') then some cs else none) = none
      exact if_neg hcne
  have hall : s.data.all Char.isDigit = true := List.all_eq_true.mpr h2
  have hid : pageIdMatch s.data = some s.data := by
    rw [pageIdMatch, if_pos ⟨h1, hall⟩]
  show resolveCQL s = "ID  = " ++ s
  simp only [resolveCQL, hch, hsp, hpr, hid]

/-- C8 (witness): `123` resolves to `ID  = 123`. -/
theorem c8_digits_resolve_to_id_query_witness :
    "123".data ≠ [] ∧ (∀ c ∈ "123".data, c.isDigit) ∧
    resolveCQL "123" = "ID  = " ++ "123" :=
  ⟨by decide, by decide,
   c8_digits_resolve_to_id_query "123" (by decide) (by decide)⟩

/-- C9: a reference matching none of the four patterns is returned
unchanged, and the resolver is idempotent on it. -/
theorem c9_unmatched_reference_passthrough_idempotent (ref : String)
    (h1 : spacePageRefMatch (chomp ref.data) = none)
    (h2 : pageRefMatch (chomp ref.data) = none)
    (h3 : pageIdMatch (chomp ref.data) = none)
    (h4 : pageUriMatch (chomp ref.data) = none) :
    resolveCQL ref = ref ∧ resolveCQL (resolveCQL ref) = resolveCQL ref := by
  have hr : resolveCQL ref = ref := by
    simp only [resolveCQL, h1, h2, h3, h4]
  exact ⟨hr, by rw [hr, hr]⟩

/-- C9 (witness): the raw query `type = page` matches no pattern and passes
through unchanged and idempotently. -/
theorem c9_unmatched_reference_passthrough_idempotent_witness :
    spacePageRefMatch (chomp "type = page".data) = none ∧
    pageRefMatch (chomp "type = page".data) = none ∧
    pageIdMatch (chomp "type = page".data) = none ∧
    pageUriMatch (chomp "type = page".data) = none ∧
    (resolveCQL "type = page" = "type = page" ∧
     resolveCQL (resolveCQL "type = page") = resolveCQL "type = page") :=
  ⟨rfl, rfl, rfl, rfl,
   c9_unmatched_reference_passthrough_idempotent "type = page" rfl rfl rfl rfl⟩

/- ===== Lemmas about the synchronizer ===== -/

/-- A map of delete calls is untouched by the delete-call filter. -/
theorem filter_isDeleteCall_map_delete (l : List PageData) :
    ((l.map (fun q => RCall.delete q.id)).filter isDeleteCall)
      = l.map (fun q => RCall.delete q.id) := by
  induction l with
  | nil => rfl
  | cons q qs ih => simp [isDeleteCall, ih]

/-- Every list is pointwise contained in itself. -/
theorem all_contains_self {β : Type} [DecidableEq β] (l : List β) :
    (l.all fun c => l.contains c) = true := by
  rw [List.all_eq_true]
  intro c hc
  exact List.elem_eq_true_of_mem hc

/-- If the recursive call never issues a delete, neither does the child
loop. -/
theorem copyLoopWith_no_delete (recfn : Wiki → String → String → SyncOut)
    (hrec : ∀ w a b, ((recfn w a b).calls).filter isDeleteCall = [])
    (tgtCh : List PageData) :
    ∀ (st : Wiki) (kids : List PageData),
      ((copyLoopWith recfn tgtCh st kids).2.1).filter isDeleteCall = [] := by
  intro st kids
  induction kids generalizing st with
  | nil => rfl
  | cons k ks ih =>
    simp only [copyLoopWith]
    cases hret : (recfn st k.id (subtargetFor tgtCh k)).ret with
    | error e => simp [hrec]
    | ok v => simp [List.filter_append, hrec, ih]

/-- A synchronizer call with `delete = False` issues no delete call at any
depth: pruning is confined to the call on which it was requested. -/
theorem copyPage_no_delete :
    ∀ (fuel : Nat) (st : Wiki) (source target : String) (recursive : Bool)
      (parent space : Option String),
      ((copyPage fuel st source target recursive parent space false).calls).filter
        isDeleteCall = [] := by
  intro fuel
  induction fuel with
  | zero => intro st s t r par spc; rfl
  | succ n ih =>
    intro st s t r par spc
    simp only [copyPage]
    cases hs : getPage st s with
    | error e => rfl
    | ok spg =>
      cases ht : getPage st t with
      | error e => rfl
      | ok tp =>
        dsimp only
        cases r with
        | false => rfl
        | true =>
          rw [if_pos rfl]
          split
          · split
            · have hloop := copyLoopWith_no_delete
                (fun w a b => copyPage n w a b true (some tp.id) spc false)
                (fun w a b => ih w a b true (some tp.id) spc)
              split
              · simp [List.filter_append, isDeleteCall, hloop]
              · simp [List.filter_append, isDeleteCall, hloop]
            · rfl
          · rfl

/-- C6 (amended): `copyPage` has no return statement, so no call - whatever
its arguments or outcome - ever returns a content item: a success returns
Python `None`. -/
theorem c6_sync_never_returns_item (fuel : Nat) (st : Wiki) (source target : String)
    (recursive : Bool) (parent space : Option String) (del : Bool) :
    retOkSome (copyPage fuel st source target recursive parent space del) = false := by
  cases fuel with
  | zero => rfl
  | succ n =>
    simp only [copyPage]
    split
    · rfl
    · split
      · rfl
      · split
        · split
          · split
            · split
              · rfl
              · split
                · rfl
                · rfl
            · rfl
          · rfl
        · rfl

/-- C6 (counterexample): a fully successful recursive sync over matched
trees returns `None`, not the target content item the claim promises. -/
theorem c6_successful_sync_returns_none :
    (copyPage 10 wikiC6 "1" "5" true none none false).ret = Except.ok none ∧
    (copyPage 10 wikiC6 "1" "5" true none none false).ret
      ≠ Except.ok (some ⟨"5", "A2", "bodyA", 4, none⟩) := by
  exact ⟨rfl, by decide⟩

/-- C1: on the source tree A{B, C{D}} with a not-yet-existing target
`NewA`, `copyPage` does not create anything: the target fetch raises
`ConfluenceError` (the 404 from `request` is not caught, and `getPage`
never returns `None`), so the call aborts with zero create and zero update
calls instead of taking the CREATE branch. -/
theorem c1_missing_target_aborts_instead_of_creating :
    copyPage 10 wikiC1 "1" "NewA" true none (some "SP") false
      = ⟨wikiC1, [], .error .confluence⟩ := rfl

/-- C3: the property filter stores each spec's own operator but compares
with the enclosing-scope variable `cmp` - the operator of the LAST parsed
spec. Each of the two specs passes this page on its own, yet their
conjunction rejects it, because the equality spec `a==x` is evaluated as a
not-equals test once `b!=y` is parsed after it. -/
theorem c3_last_operator_applied_to_all :
    pagePropFilterer ["a==x"] pageC3 = true ∧
    pagePropFilterer ["b!=y"] pageC3 = true ∧
    pagePropFilterer ["a==x", "b!=y"] pageC3 = false := by
  exact ⟨rfl, rfl, rfl⟩

/-- C5: when the source side (or the target side) of one synchronization
level has duplicate sibling titles, the duplicate-title assert fires: the
call ends with an AssertionError (the PreconditionViolation of the spec)
right after this level's own update, before any create, update or delete
for this level's children. -/
theorem c5_duplicate_sibling_titles_abort (n : Nat) (st : Wiki) (source target : String)
    (parent space : Option String) (del : Bool) (sp tp : PageData)
    (h1 : getPage st source = .ok sp) (h2 : getPage st target = .ok tp)
    (hdup : ¬(distinctCount (childTitles (applyUpdate st tp.id sp.body) sp.id)
                = (childTitles (applyUpdate st tp.id sp.body) sp.id).length ∧
              distinctCount (childTitles (applyUpdate st tp.id sp.body) tp.id)
                = (childTitles (applyUpdate st tp.id sp.body) tp.id).length)) :
    copyPage (n + 1) st source target true parent space del
      = ⟨applyUpdate st tp.id sp.body,
         [RCall.update tp.id tp.title tp.version sp.body],
         .error .assertion⟩ := by
  simp only [childTitles] at hdup
  simp only [copyPage, h1, h2]
  rw [if_pos trivial]
  split
  · split
    · rename_i hA hB
      exact absurd ⟨hA, hB⟩ hdup
    · rfl
  · rfl

/-- C5 (witness): a source with two children titled `B` aborts with the
assertion right after the top-level update. -/
theorem c5_duplicate_sibling_titles_abort_witness :
    getPage wikiC5 "1" = .ok ⟨"1", "A", "bodyA", 1, none⟩ ∧
    getPage wikiC5 "9" = .ok ⟨"9", "T", "old", 1, none⟩ ∧
    copyPage 7 wikiC5 "1" "9" true none none false
      = ⟨applyUpdate wikiC5 "9" "bodyA", [RCall.update "9" "T" 1 "bodyA"],
         .error .assertion⟩ :=
  ⟨rfl, rfl,
   c5_duplicate_sibling_titles_abort 6 wikiC5 "1" "9" none none false
     ⟨"1", "A", "bodyA", 1, none⟩ ⟨"9", "T", "old", 1, none⟩ rfl rfl
     (by simp [childTitles, getChildren, applyUpdate, wikiC5, sortByTitle,
           insertByTitle, distinctCount])⟩

/-- C10: with recursion and pruning both enabled, every delete call of the
whole run targets an orphaned direct child of the top-level target (a child
whose title is absent among the source's children): the recursive child
calls are made with `delete` left at its default `False` and so never
delete anything deeper in the tree. -/
theorem c10_deletes_only_top_level_orphans (fuel : Nat) (st : Wiki)
    (source target : String) (parent space : Option String) (sp tp : PageData)
    (h1 : getPage st source = .ok sp) (h2 : getPage st target = .ok tp) :
    (((copyPage fuel st source target true parent space true).calls.filter
        isDeleteCall).all
      (fun c => ((orphanChildren (applyUpdate st tp.id sp.body) sp.id tp.id).map
        (fun q => RCall.delete q.id)).contains c)) = true := by
  cases fuel with
  | zero => rfl
  | succ n =>
    simp only [copyPage, h1, h2, orphanChildren]
    rw [if_pos trivial]
    have hloop := copyLoopWith_no_delete
      (fun w a b => copyPage n w a b true (some tp.id) space false)
      (fun w a b => copyPage_no_delete n w a b true (some tp.id) space)
    split
    · split
      · split
        · simp [List.filter_append, isDeleteCall, hloop]
        · rw [if_pos trivial]
          simp only [List.filter_append, hloop, filter_isDeleteCall_map_delete]
          simp [isDeleteCall, all_contains_self]
      · simp [isDeleteCall]
    · simp [isDeleteCall]

/-- C10 (witness): pruning a matched tree with one extra target child X
deletes only that orphan. -/
theorem c10_deletes_only_top_level_orphans_witness :
    getPage wikiC10 "1" = .ok ⟨"1", "A", "bodyA", 1, none⟩ ∧
    getPage wikiC10 "5" = .ok ⟨"5", "A2", "old5", 3, none⟩ ∧
    (((copyPage 10 wikiC10 "1" "5" true none none true).calls.filter
        isDeleteCall).all
      (fun c => ((orphanChildren (applyUpdate wikiC10 "5" "bodyA") "1" "5").map
        (fun q => RCall.delete q.id)).contains c)) = true :=
  ⟨rfl, rfl,
   c10_deletes_only_top_level_orphans 10 wikiC10 "1" "5" none none
     ⟨"1", "A", "bodyA", 1, none⟩ ⟨"5", "A2", "old5", 3, none⟩ rfl rfl⟩

end ConfluenceTool
